import Mathlib

set_option maxRecDepth 16000

/-!
Verification of the Handoff.ai request-orchestration pipeline.

The definitions below are a shallow embedding of the two source files of the
repository: the `/api/summary` route handler (interfaces `SummaryRequest` /
`SummaryResponse`, the prompt table `getPrompt` and the `POST` handler) and the
input classifier of the upload page (`hasRequiredFiles` and the first-match
file selection in `generateContent`).  TypeScript template literals are
rendered as explicit string concatenation; JavaScript falsiness on strings
(`!s`) is rendered as equality with `""`; the external completion service is
an explicit input of `POST`, and the outbound request the handler would send
is returned alongside the HTTP response so that theorems can talk about
whether and how the upstream was invoked.
-/

/-! ### Prompt composer (`getPrompt` in the route handler) -/

/-- Heading placed before the interpolated chat transcript in the `summary`,
`cursor` and `readme` templates. -/
def chatHeading : String := "\n\n## Chat Transcript:\n"

/-- Heading placed before the interpolated chat transcript in the default
(combined) template. -/
def chatExportHeading : String := "\n\n## Chat Export:\n"

/-- Heading placed before the interpolated code body in all four templates. -/
def codeHeading : String := "\n\n## Final Code:\n"

/-- The literal separator line used by the templates. -/
def sepLine : String := "---"

/-- Instructional text of the `summary` template (everything before the
`---` separator in the template literal of the source). -/
def summaryInstructions : String :=
  "Summarize the following AI-assisted development session in 2–3 sentences.\n\nFocus on:\n- What Engineer 1 was trying to build\n- Any major shifts in approach\n- Tools or APIs used\n- Current state of the work (e.g. incomplete, functional, missing validation)\n\nAvoid code. Be concise and clear.\n\n"

/-- The `summary` template: the concatenation equals the source's template
literal for `case 'summary'` with `markdown` and `code` interpolated. -/
def summaryPrompt (markdown code : String) : String :=
  summaryInstructions ++ sepLine ++ chatHeading ++ markdown ++ codeHeading ++ code

/-- Instructional text of the `cursor` template (everything before the first
`---` separator in the template literal of the source). -/
def cursorInstructions : String :=
  "You are an AI memory generator for coding assistants like Cursor. Your task is to create a structured context document that captures the full development process from a previous engineer, to be used by a second engineer's AI assistant to continue seamlessly.\n\nYou will be given:\n- The full code at the time of handoff\n- Logs of chat conversations between Engineer 1 and their coding assistants (Cursor, Claude, etc.), including prompts, code suggestions, errors, questions, and revisions\n\nOutput a detailed technical summary with the following structure:\n\n1. Feature Name\n2. Development Timeline (timestamped major events)\n3. Original Goals (what the engineer was trying to achieve)\n4. Coding History:\n   - Key code changes with associated prompts\n   - Important implementation decisions\n   - Deleted or replaced approaches\n   - Bugs and error messages encountered\n5. Resolved vs Unresolved Issues\n6. Remaining TODOs\n7. Dependencies and External Services\n8. Engineer 1's coding preferences or style notes (e.g. \"prefers minimal error handling\", \"used async/await throughout\")\n\nThis document will serve as **working context for the next engineer's AI assistant**, so avoid unnecessary commentary. Prioritize clarity, completeness, and deep technical accuracy. Include relevant code snippets and time markers to help AI interpret the codebase like Engineer 1 did.\n\n"

/-- Trailing formatting instructions of the `cursor` template (everything after
the second `---` separator). -/
def cursorTrailing : String :=
  "\n\nPlease return only the structured context document that can be pasted into Cursor/Claude to give the AI assistant full context of Engineer 1's work."

/-- The `cursor` template: the concatenation equals the source's template
literal for `case 'cursor'`. -/
def cursorPrompt (markdown code : String) : String :=
  cursorInstructions ++ sepLine ++ chatHeading ++ markdown ++ codeHeading ++ code
    ++ "\n\n" ++ sepLine ++ cursorTrailing

/-- Instructional text of the `readme` template (everything before the `---`
separator in the template literal of the source). -/
def readmeInstructions : String :=
  "You are a senior AI developer assistant. Your task is to generate a clear, human-readable README for a second engineer inheriting a coding project mid-sprint.\n\nYou will be given:\n- Full source code at the time of handoff\n- A chronological log of conversations between Engineer 1 and their AI assistants (Cursor, Claude, etc), including all prompts, responses, code snippets, questions, bugs, and notes.\n\nYour job is to extract and organize the full **thought process** of Engineer 1 into a concise but thorough README. It must help Engineer 2 quickly understand:\n\n1. What was the goal of the work Engineer 1 was doing?\n2. What did the code look like when they started?\n3. How did it change over time? (Include timestamps with major events)\n4. What bugs or blockers did they face? How were these resolved?\n5. What tradeoffs were made or shortcuts taken?\n6. Are there any known gaps, risks, or unfinished elements?\n7. Any critical TODOs or handoff notes?\n8. What patterns or intentions does Engineer 2 need to know to continue work?\n\nFormat the README with clearly marked sections and timestamps (e.g. Monday 11:04am – Fixed image upload bug by bypassing validation check). Use bullet points and code snippets when helpful. Prioritize clarity, context, and continuity. Assume Engineer 2 has access to the code but not the full chat history.\n\n"

/-- The `readme` template: the concatenation equals the source's template
literal for `case 'readme'`. -/
def readmePrompt (markdown code : String) : String :=
  readmeInstructions ++ sepLine ++ chatHeading ++ markdown ++ codeHeading ++ code

/-- Instructional text of the default ("combined") template (everything
before the first `---` separator). -/
def combinedInstructions : String :=
  "You're an AI summarizer for engineering handoffs.\n\nA developer worked on a feature using AI tools like Cursor and Claude. Below is their chat log and final code.\n\nGenerate:\n\n### README.md\n- What they built\n- Key decisions\n- Tradeoffs\n- Tools used\n- TODOs\n- Red flags\n\n### Cursor Log\nReconstruct the session as:\n### Engineer:\n...\n### AI:\n...\n\n"

/-- Trailing formatting instructions of the default ("combined") template
(everything after the second `---` separator). -/
def combinedTrailing : String :=
  "\n\nPlease provide your response in the following format:\n\n## README.md\n[Your README content here]\n\n## Cursor Log\n[Your Cursor log reconstruction here]"

/-- The default ("combined") template: the concatenation equals the source's
template literal for the `default:` branch of `getPrompt`. -/
def combinedPrompt (markdown code : String) : String :=
  combinedInstructions ++ sepLine ++ chatExportHeading ++ markdown ++ codeHeading ++ code
    ++ "\n\n" ++ sepLine ++ combinedTrailing

/-- `getPrompt` of the route handler: a `switch` on `type` with exact string
match, falling through to the combined template on anything unrecognized. -/
def getPrompt (type markdown code : String) : String :=
  if type = "summary" then summaryPrompt markdown code
  else if type = "cursor" then cursorPrompt markdown code
  else if type = "readme" then readmePrompt markdown code
  else combinedPrompt markdown code

/-! ### Route handler (`POST` in the route handler source) -/

/-- `NVIDIA_API_URL` module constant of the route handler. -/
def NVIDIA_API_URL : String := "https://integrate.api.nvidia.com/v1"

/-- `MODEL_NAME` module constant of the route handler. -/
def MODEL_NAME : String := "nvidia/llama-3.1-nemotron-nano-8b-v1"

/-- The `SummaryResponse` interface of the route handler: three optional
string fields, in source order. -/
structure SummaryResponse where
  readme : Option String
  cursorLog : Option String
  summary : Option String
deriving DecidableEq

/-- Body of the HTTP response produced by `NextResponse.json`: either a
`SummaryResponse` payload or an `{ error: string }` payload. -/
inductive ApiBody where
  | json (r : SummaryResponse)
  | jsonError (error : String)
deriving DecidableEq

/-- The HTTP response the handler returns: status plus JSON body
(`NextResponse.json(result)` defaults to status 200). -/
structure ApiResponse where
  status : Nat
  body : ApiBody
deriving DecidableEq

/-- Result of `await request.json()` and destructuring
`{ markdown, code, type = 'summary' }`: either the fields (with `type`
absent modelled as `none`), a `SyntaxError` thrown by JSON parsing, or any
other error thrown before a response is produced. -/
inductive ParsedBody where
  | fields (markdown code : String) (type? : Option String)
  | syntaxError
  | otherError

/-- The outbound `fetch` request the handler builds for the completion
service: URL, bearer credential, and the JSON body fields it serializes
(`model`, `messages`, `temperature`, `top_p`, `max_tokens`, `stream`).
The numeric sampling parameters are modelled as exact rationals. -/
structure OutboundRequest where
  url : String
  bearer : String
  model : String
  messages : List (String × String)
  temperature : ℚ
  top_p : ℚ
  max_tokens : Nat
  stream : Bool
deriving DecidableEq

/-- Outcome of the outbound `fetch`: an HTTP response with a status and the
parsed `choices` list (each element modelling `message?.content` of one
choice, `none` when the optional chain `choices?.[0]?.message?.content`
misses), or a transport error (a rejected `fetch`), which the handler's
outer `catch` turns into a generic 500. -/
inductive FetchOutcome where
  | httpResponse (status : Nat) (choices : Option (List (Option String)))
  | networkError

/-- `data.choices?.[0]?.message?.content || ''` of the route handler. -/
def extractContent (choices : Option (List (Option String))) : String :=
  match choices with
  | none => ""
  | some [] => ""
  | some (c :: _) => c.getD ""

/-- The `POST` handler of `/api/summary`.  Inputs: the parsed request body,
the `process.env.NVIDIA_API_KEY` configuration value, and the outcome of the
single outbound call.  Output: the HTTP response returned to the caller,
paired with the outbound request actually sent (`none` when the handler
returned before invoking the upstream service). -/
def POST (body : ParsedBody) (apiKey : Option String) (upstream : FetchOutcome) :
    ApiResponse × Option OutboundRequest :=
  match body with
  | .syntaxError =>
      (⟨400, .jsonError "Invalid JSON in request body"⟩, none)
  | .otherError =>
      (⟨500, .jsonError "Internal server error occurred while processing your request"⟩, none)
  | .fields markdown code type? =>
      let type := type?.getD "summary"
      if markdown = "" ∨ code = "" then
        (⟨400, .jsonError "Both markdown and code fields are required"⟩, none)
      else if apiKey.getD "" = "" then
        (⟨500, .jsonError "Server configuration error: API key not found"⟩, none)
      else
        let req : OutboundRequest :=
          { url := NVIDIA_API_URL ++ "/chat/completions"
            bearer := apiKey.getD ""
            model := MODEL_NAME
            messages := [("user", getPrompt type markdown code)]
            temperature := 7/10
            top_p := 1
            max_tokens := if type = "summary" then 512 else 2048
            stream := false }
        match upstream with
        | .networkError =>
            (⟨500, .jsonError "Internal server error occurred while processing your request"⟩,
              some req)
        | .httpResponse status choices =>
            if ¬ (200 ≤ status ∧ status ≤ 299) then
              (⟨status, .jsonError
                  (if status = 401 then "Invalid API key"
                   else if status = 429 then "Rate limit exceeded. Please try again later."
                   else if 500 ≤ status then "NVIDIA API service unavailable"
                   else "Failed to generate content")⟩,
                some req)
            else
              let content := extractContent choices
              if content = "" then
                (⟨500, .jsonError "No content generated from AI"⟩, some req)
              else
                (⟨200, .json
                    (if type = "summary" then ⟨none, none, some content⟩
                     else if type = "cursor" then ⟨none, some content, none⟩
                     else if type = "readme" then ⟨some content, none, none⟩
                     else ⟨none, none, none⟩)⟩,
                  some req)

/-! ### Input classifier (`hasRequiredFiles` and file selection in the page) -/

/-- JavaScript `string.split('.')` on the characters of a file name: the
maximal '.'-free segments, keeping empty segments, never returning an empty
list of segments. -/
def splitOnDot : List Char → List (List Char)
  | [] => [[]]
  | c :: rest =>
    if c = '.' then [] :: splitOnDot rest
    else
      match splitOnDot rest with
      | [] => [[c]]
      | seg :: segs => (c :: seg) :: segs

/-- `'.' + f.name.split('.').pop()?.toLowerCase()` of the page source,
computed from a file name (`toLowerCase` rendered as per-character ASCII
lowering, which agrees with JavaScript on the extensions involved). -/
def fileExt (name : String) : String :=
  ⟨'.' :: ((splitOnDot name.data).getLast?.getD []).map Char.toLower⟩

/-- `hasRequiredFiles` of the page source over the uploaded file names:
some file has a `.md`/`.txt` extension and some file has a `.js`/`.ts`
extension. -/
def hasRequiredFiles (uploadedFiles : List String) : Bool :=
  (uploadedFiles.any fun f => [".md", ".txt"].contains (fileExt f)) &&
  (uploadedFiles.any fun f => [".js", ".ts"].contains (fileExt f))

/-- The `markdownFile` selection of `generateContent`: the first uploaded
file whose extension is `.md` or `.txt`. -/
def markdownFile (uploadedFiles : List String) : Option String :=
  uploadedFiles.find? fun f => [".md", ".txt"].contains (fileExt f)

/-- The `codeFile` selection of `generateContent`: the first uploaded file
whose extension is `.js` or `.ts`. -/
def codeFile (uploadedFiles : List String) : Option String :=
  uploadedFiles.find? fun f => [".js", ".ts"].contains (fileExt f)

/-! ### Executable substring machinery for structural statements -/

/-- `startsWithChars pat l` holds when `pat` is a prefix of `l`. -/
def startsWithChars : List Char → List Char → Bool
  | [], _ => true
  | _ :: _, [] => false
  | p :: ps, x :: xs => p == x && startsWithChars ps xs

/-- `containsChars pat l` holds when `pat` occurs as a contiguous segment
of `l`. -/
def containsChars (pat : List Char) : List Char → Bool
  | [] => startsWithChars pat []
  | x :: xs => startsWithChars pat (x :: xs) || containsChars pat xs

/-- Modelled from the spec: the structural contract the spec claims for all
four templates, read literally — instructional text, then a literal `---`
separator, then the chat transcript, then a literal `---` separator, then the
code body, optionally followed by trailing text. -/
def promptShapeStrict (p markdown code : String) : Prop :=
  ∃ instr trail : String,
    p = instr ++ "---" ++ markdown ++ "---" ++ code ++ trail

/-- Modelled from the spec: a charitable loose reading of the same claimed
contract, requiring only that some `---` occurs between the instructions and
the transcript and that some `---` occurs between the transcript and the
code, with arbitrary text around them. -/
def promptShapeLoose (p markdown code : String) : Prop :=
  ∃ s₁ s₂ s₃ s₄ s₅ : String,
    p = s₁ ++ "---" ++ s₂ ++ markdown ++ s₃ ++ "---" ++ s₄ ++ code ++ s₅

/-! ### Helper lemmas -/

theorem startsWithChars_append (pat rest : List Char) :
    startsWithChars pat (pat ++ rest) = true := by
  induction pat with
  | nil => rfl
  | cons p ps ih => simp [startsWithChars, ih]

theorem containsChars_of_startsWith {pat l : List Char}
    (h : startsWithChars pat l = true) : containsChars pat l = true := by
  cases l with
  | nil =>
    cases pat with
    | nil => rfl
    | cons p ps => simp [startsWithChars] at h
  | cons x xs => simp [containsChars, h]

theorem containsChars_cons {pat l : List Char} (x : Char)
    (h : containsChars pat l = true) : containsChars pat (x :: l) = true := by
  simp [containsChars, h]

theorem containsChars_of_split (pre pat post : List Char) :
    containsChars pat (pre ++ pat ++ post) = true := by
  induction pre with
  | nil => simpa using containsChars_of_startsWith (startsWithChars_append pat post)
  | cons x xs ih => simpa using containsChars_cons x ih

theorem split_at_unique {α : Type} {x : α} (a : List α) :
    ∀ a' : List α, ∀ {b b' : List α}, a ++ x :: b = a' ++ x :: b' →
      x ∉ a → x ∉ a' → a = a' ∧ b = b' := by
  induction a with
  | nil =>
    intro a' b b' h _ hx'
    cases a' with
    | nil => exact ⟨rfl, by simpa using h⟩
    | cons y t =>
      simp only [List.nil_append, List.cons_append, List.cons.injEq] at h
      exact absurd (by rw [h.1]; exact List.mem_cons_self y t) hx'
  | cons y t ih =>
    intro a' b b' h hx hx'
    cases a' with
    | nil =>
      simp only [List.nil_append, List.cons_append, List.cons.injEq] at h
      exact absurd (by rw [← h.1]; exact List.mem_cons_self y t) hx
    | cons z u =>
      simp only [List.cons_append, List.cons.injEq] at h
      obtain ⟨rfl, h2⟩ := h
      have hx1 : x ∉ t := fun hm => hx (List.mem_cons_of_mem _ hm)
      have hx2 : x ∉ u := fun hm => hx' (List.mem_cons_of_mem _ hm)
      obtain ⟨rfl, rfl⟩ := ih u h2 hx1 hx2
      exact ⟨rfl, rfl⟩

theorem loose_decomp_sep_between {x y : Char} {A B l : List Char}
    (hl : l = A ++ x :: (B ++ y :: []))
    (hcx : List.count x l = 1)
    (hcy : List.count y (B ++ y :: []) = 1)
    (hsepB : containsChars ['-', '-', '-'] B = false) :
    ¬ ∃ u v w : List Char,
        l = u ++ x :: (v ++ y :: w) ∧ containsChars ['-', '-', '-'] v = true := by
  rintro ⟨u, v, w, hd, hsep⟩
  have hxA : x ∉ A := by
    have h := hcx
    rw [hl, List.count_append, List.count_cons_self] at h
    exact List.count_eq_zero.mp (by omega)
  have hxu : x ∉ u := by
    have h := hcx
    rw [hd, List.count_append, List.count_cons_self] at h
    exact List.count_eq_zero.mp (by omega)
  obtain ⟨hA, hR⟩ := split_at_unique A u (hl.symm.trans hd) hxA hxu
  have hyB : y ∉ B := by
    have h := hcy
    rw [List.count_append, List.count_cons_self] at h
    exact List.count_eq_zero.mp (by omega)
  have hyv : y ∉ v := by
    have h := hcy
    rw [hR, List.count_append, List.count_cons_self] at h
    exact List.count_eq_zero.mp (by omega)
  obtain ⟨hB, _⟩ := split_at_unique B v hR hyB hyv
  rw [← hB] at hsep
  rw [hsepB] at hsep
  exact Bool.false_ne_true hsep

/-! ### Claim theorems -/

/-- C1: for every request whose upstream call succeeds (2xx) with non-empty
completion text, the returned result populates exactly the field matching the
request's mode — `summary` only the summary field, `cursor`
(continuation-context) only the cursorLog field, `readme` only the readme
field — leaving the other two unset, with success status 200. -/
theorem post_success_populates_mode_field
    (markdown code key content : String) (status : Nat)
    (choices : Option (List (Option String)))
    (hm : markdown ≠ "") (hc : code ≠ "") (hk : key ≠ "")
    (hs : 200 ≤ status ∧ status ≤ 299)
    (hcontent : extractContent choices = content) (hne : content ≠ "") :
    (POST (.fields markdown code (some "summary")) (some key)
        (.httpResponse status choices)).1
      = ⟨200, .json ⟨none, none, some content⟩⟩ ∧
    (POST (.fields markdown code (some "cursor")) (some key)
        (.httpResponse status choices)).1
      = ⟨200, .json ⟨none, some content, none⟩⟩ ∧
    (POST (.fields markdown code (some "readme")) (some key)
        (.httpResponse status choices)).1
      = ⟨200, .json ⟨some content, none, none⟩⟩ := by
  refine ⟨?_, ?_, ?_⟩ <;>
    simp [POST, hm, hc, hk, hs.1, hs.2, hcontent, hne]

/-- C1 witness: a summary-mode request whose upstream returns
"Built X using Y." yields exactly `{summary: "Built X using Y."}`. -/
theorem post_success_populates_mode_field_witness :
    (POST (.fields "chat" "code" (some "summary")) (some "k")
        (.httpResponse 200 (some [some "Built X using Y."]))).1
      = ⟨200, .json ⟨none, none, some "Built X using Y."⟩⟩ :=
  (post_success_populates_mode_field "chat" "code" "k" "Built X using Y." 200
      (some [some "Built X using Y."]) (by decide) (by decide) (by decide)
      (by decide) (by decide) (by decide)).1

/-- C2 counterexample: an upstream 503 is classified UpstreamUnavailable
(message "NVIDIA API service unavailable"), but the status returned to the
caller is 503, not the claimed 500 — the handler echoes `response.status`
verbatim. -/
theorem post_upstream_status_not_category_cex :
    (POST (.fields "m" "c" none) (some "k") (.httpResponse 503 none)).1.status = 503 ∧
    (POST (.fields "m" "c" none) (some "k") (.httpResponse 503 none)).1.body
      = .jsonError "NVIDIA API service unavailable" ∧
    (503 : Nat) ≠ 500 :=
  ⟨by decide, by decide, by decide⟩

/-- C2 amended: on a non-2xx upstream status the error message is classified
as the claim says (401 → invalid key, 429 → rate limited, ≥500 → service
unavailable, anything else → generic), but the status of the response
returned to the caller is the upstream status verbatim, which matches the
classified category's status only for 401, 429 and exactly 500. -/
theorem post_non2xx_status_passthrough
    (markdown code key : String) (type? : Option String) (status : Nat)
    (choices : Option (List (Option String)))
    (hm : markdown ≠ "") (hc : code ≠ "") (hk : key ≠ "")
    (hs : ¬ (200 ≤ status ∧ status ≤ 299)) :
    (POST (.fields markdown code type?) (some key) (.httpResponse status choices)).1
      = ⟨status, .jsonError
          (if status = 401 then "Invalid API key"
           else if status = 429 then "Rate limit exceeded. Please try again later."
           else if 500 ≤ status then "NVIDIA API service unavailable"
           else "Failed to generate content")⟩ := by
  simp [POST, hm, hc, hk, hs]

/-- C2 amended witness at upstream status 503. -/
theorem post_non2xx_status_passthrough_witness :
    (POST (.fields "m" "c" none) (some "k") (.httpResponse 503 none)).1
      = ⟨503, .jsonError
          (if 503 = 401 then "Invalid API key"
           else if 503 = 429 then "Rate limit exceeded. Please try again later."
           else if 500 ≤ 503 then "NVIDIA API service unavailable"
           else "Failed to generate content")⟩ :=
  post_non2xx_status_passthrough "m" "c" "k" none 503 none
    (by decide) (by decide) (by decide) (by decide)

/-- C3 counterexample: a whitespace-only `markdown` (" ") is not rejected —
the request succeeds with status 200 and the upstream service is invoked,
because the handler checks JavaScript falsiness (`!markdown`), not emptiness
after trimming. -/
theorem post_whitespace_not_rejected_cex :
    (POST (.fields " " "x" none) (some "k")
        (.httpResponse 200 (some [some "out"]))).1
      = ⟨200, .json ⟨none, none, some "out"⟩⟩ ∧
    (POST (.fields " " "x" none) (some "k")
        (.httpResponse 200 (some [some "out"]))).2.isSome = true :=
  ⟨by decide, by decide⟩

/-- C3 amended: only a truly empty (or absent, which parses to the same
falsy check) `markdown`/`code` fails validation with BadInput 400 and
prevents the upstream call; whitespace-only strings pass validation. -/
theorem post_empty_input_bad_request
    (markdown code : String) (type? : Option String) (apiKey : Option String)
    (upstream : FetchOutcome) (h : markdown = "" ∨ code = "") :
    (POST (.fields markdown code type?) apiKey upstream).1
      = ⟨400, .jsonError "Both markdown and code fields are required"⟩ ∧
    (POST (.fields markdown code type?) apiKey upstream).2 = none := by
  have hres : POST (.fields markdown code type?) apiKey upstream
      = (⟨400, .jsonError "Both markdown and code fields are required"⟩, none) := by
    simp only [POST]
    rw [if_pos h]
  rw [hres]
  exact ⟨rfl, rfl⟩

/-- C3 amended witness: an empty `markdown` yields 400 with no upstream
call. -/
theorem post_empty_input_bad_request_witness :
    (POST (.fields "" "x" none) none FetchOutcome.networkError).1
      = ⟨400, .jsonError "Both markdown and code fields are required"⟩ ∧
    (POST (.fields "" "x" none) none FetchOutcome.networkError).2 = none :=
  post_empty_input_bad_request "" "x" none none FetchOutcome.networkError (Or.inl rfl)

/-- C4: a 2xx upstream response whose first completion text is empty or
absent (in particular an empty or missing choices list) yields the
UpstreamEmpty failure "No content generated from AI" with status 500, never
a success with an empty field. -/
theorem post_empty_completion_error
    (markdown code key : String) (type? : Option String) (status : Nat)
    (choices : Option (List (Option String)))
    (hm : markdown ≠ "") (hc : code ≠ "") (hk : key ≠ "")
    (hs : 200 ≤ status ∧ status ≤ 299)
    (hempty : extractContent choices = "") :
    (POST (.fields markdown code type?) (some key) (.httpResponse status choices)).1
      = ⟨500, .jsonError "No content generated from AI"⟩ := by
  simp [POST, hm, hc, hk, hs.1, hs.2, hempty]

/-- C4 witness: a 200 upstream response with an empty completion list. -/
theorem post_empty_completion_error_witness :
    (POST (.fields "m" "c" none) (some "k") (.httpResponse 200 (some []))).1
      = ⟨500, .jsonError "No content generated from AI"⟩ :=
  post_empty_completion_error "m" "c" "k" none 200 (some [])
    (by decide) (by decide) (by decide) (by decide) (by decide)

/-- C5: with non-empty inputs and no upstream credential configured, the
handler fails with the fixed generic ConfigMissing message and status 500
without invoking the upstream service; the credential check runs after input
validation, so an empty-input request still yields 400 even with the
credential missing. -/
theorem post_missing_key_config_error
    (markdown code : String) (type? : Option String) (upstream : FetchOutcome)
    (hm : markdown ≠ "") (hc : code ≠ "") :
    (POST (.fields markdown code type?) none upstream).1
      = ⟨500, .jsonError "Server configuration error: API key not found"⟩ ∧
    (POST (.fields markdown code type?) none upstream).2 = none ∧
    (POST (.fields "" code type?) none upstream).1.status = 400 := by
  refine ⟨?_, ?_, ?_⟩ <;> simp [POST, hm, hc]

/-- C5 witness. -/
theorem post_missing_key_config_error_witness :
    (POST (.fields "m" "c" none) none FetchOutcome.networkError).1
      = ⟨500, .jsonError "Server configuration error: API key not found"⟩ ∧
    (POST (.fields "m" "c" none) none FetchOutcome.networkError).2 = none ∧
    (POST (.fields "" "c" none) none FetchOutcome.networkError).1.status = 400 :=
  post_missing_key_config_error "m" "c" none FetchOutcome.networkError
    (by decide) (by decide)

/-- C6: `hasRequiredFiles` holds exactly when a Chat-category file
(`.md`/`.txt`, case-insensitive) and a Code-category file (`.js`/`.ts`) are
both present, and selection takes the first of each in caller order:
for [a.py, b.md, c.js] it is true with b.md/c.js selected, for [a.py] it is
false, for [x.md, y.txt] the chat selection is x.md, and upper-case
extensions are accepted. -/
theorem classifier_required_files_spec :
    (∀ files : List String, hasRequiredFiles files = true ↔
      ((∃ f ∈ files, [".md", ".txt"].contains (fileExt f) = true) ∧
       (∃ f ∈ files, [".js", ".ts"].contains (fileExt f) = true))) ∧
    hasRequiredFiles ["a.py", "b.md", "c.js"] = true ∧
    markdownFile ["a.py", "b.md", "c.js"] = some "b.md" ∧
    codeFile ["a.py", "b.md", "c.js"] = some "c.js" ∧
    hasRequiredFiles ["a.py"] = false ∧
    markdownFile ["x.md", "y.txt"] = some "x.md" ∧
    hasRequiredFiles ["B.MD", "C.JS"] = true := by
  refine ⟨?_, by decide, by decide, by decide, by decide, by decide, by decide⟩
  intro files
  simp [hasRequiredFiles, List.any_eq_true]

/-- C7: any mode outside the three recognized ones composes the fourth
(combined) template instead of failing, the upstream call is still made, and
on a successful non-empty completion the result populates none of the three
output fields, discarding the generated text. -/
theorem unrecognized_mode_fallback
    (type markdown code key : String) (status : Nat)
    (choices : Option (List (Option String)))
    (h1 : type ≠ "summary") (h2 : type ≠ "cursor") (h3 : type ≠ "readme")
    (hm : markdown ≠ "") (hc : code ≠ "") (hk : key ≠ "")
    (hs : 200 ≤ status ∧ status ≤ 299)
    (hne : extractContent choices ≠ "") :
    getPrompt type markdown code = combinedPrompt markdown code ∧
    (POST (.fields markdown code (some type)) (some key)
        (.httpResponse status choices)).2.isSome = true ∧
    (POST (.fields markdown code (some type)) (some key)
        (.httpResponse status choices)).1
      = ⟨200, .json ⟨none, none, none⟩⟩ := by
  refine ⟨by simp [getPrompt, h1, h2, h3], ?_, ?_⟩ <;>
    simp [POST, h1, h2, h3, hm, hc, hk, hs.1, hs.2, hne]

/-- C7 witness at the unrecognized mode "combined". -/
theorem unrecognized_mode_fallback_witness :
    getPrompt "combined" "m" "c" = combinedPrompt "m" "c" ∧
    (POST (.fields "m" "c" (some "combined")) (some "k")
        (.httpResponse 200 (some [some "out"]))).2.isSome = true ∧
    (POST (.fields "m" "c" (some "combined")) (some "k")
        (.httpResponse 200 (some [some "out"]))).1
      = ⟨200, .json ⟨none, none, none⟩⟩ :=
  unrecognized_mode_fallback "combined" "m" "c" "k" 200 (some [some "out"])
    (by decide) (by decide) (by decide) (by decide) (by decide) (by decide)
    (by decide) (by decide)

/-- C8: whenever the upstream service is invoked, the outbound request
carries the composed prompt as a single user turn, temperature 0.7, top-p 1,
streaming disabled, and a token cap of 512 in summary mode and 2048 for
every other mode (including unrecognized ones). -/
theorem outbound_request_parameters
    (markdown code key : String) (type? : Option String) (upstream : FetchOutcome)
    (hm : markdown ≠ "") (hc : code ≠ "") (hk : key ≠ "") :
    (POST (.fields markdown code type?) (some key) upstream).2
      = some { url := NVIDIA_API_URL ++ "/chat/completions"
               bearer := key
               model := MODEL_NAME
               messages := [("user", getPrompt (type?.getD "summary") markdown code)]
               temperature := 7/10
               top_p := 1
               max_tokens := if type?.getD "summary" = "summary" then 512 else 2048
               stream := false } := by
  cases upstream with
  | networkError => simp [POST, hm, hc, hk]
  | httpResponse status choices =>
    by_cases hok : 200 ≤ status ∧ status ≤ 299
    · by_cases hcont : extractContent choices = ""
      · simp [POST, hm, hc, hk, hok.1, hok.2, hcont]
      · simp [POST, hm, hc, hk, hok.1, hok.2, hcont]
    · simp [POST, hm, hc, hk, hok]

/-- C8 witness: a summary-mode request sends max_tokens 512 and the fixed
sampling parameters. -/
theorem outbound_request_parameters_witness :
    (POST (.fields "m" "c" (some "summary")) (some "k") FetchOutcome.networkError).2
      = some { url := NVIDIA_API_URL ++ "/chat/completions"
               bearer := "k"
               model := MODEL_NAME
               messages := [("user", getPrompt "summary" "m" "c")]
               temperature := 7/10
               top_p := 1
               max_tokens := 512
               stream := false } := by
  have h := outbound_request_parameters "m" "c" "k" (some "summary")
    FetchOutcome.networkError (by decide) (by decide) (by decide)
  simpa using h

/-- C9 counterexample: a request body that fails to parse (SyntaxError) is
answered with status 400, not the claimed Internal 500. -/
theorem malformed_body_status_cex :
    (POST .syntaxError none FetchOutcome.networkError).1.status = 400 ∧
    (400 : Nat) ≠ 500 :=
  ⟨rfl, by decide⟩

/-- C9 amended: a malformed request body (SyntaxError from JSON parsing) is
answered 400 with "Invalid JSON in request body" — treated as bad input
rather than Internal — while any other uncategorized failure is the Internal
500; in both cases the upstream service is not invoked. -/
theorem malformed_body_handling :
    (∀ (apiKey : Option String) (upstream : FetchOutcome),
      (POST .syntaxError apiKey upstream).1
        = ⟨400, .jsonError "Invalid JSON in request body"⟩ ∧
      (POST .syntaxError apiKey upstream).2 = none) ∧
    (∀ (apiKey : Option String) (upstream : FetchOutcome),
      (POST .otherError apiKey upstream).1
        = ⟨500, .jsonError
            "Internal server error occurred while processing your request"⟩ ∧
      (POST .otherError apiKey upstream).2 = none) :=
  ⟨fun _ _ => ⟨rfl, rfl⟩, fun _ _ => ⟨rfl, rfl⟩⟩

/-- C10 counterexample: the summary template composed with transcript "@"
and code "~" has no occurrence of "---" between the interpolated transcript
and the interpolated code (the only text there is the "## Final Code:"
heading), so the claimed
"instructions + '---' + transcript + '---' + code [+ trailing]" structure
fails both under a literal reading and under a loose reading that allows
extra text around the separators. -/
theorem prompt_structure_cex :
    ¬ promptShapeStrict (getPrompt "summary" "@" "~") "@" "~" ∧
    ¬ promptShapeLoose (getPrompt "summary" "@" "~") "@" "~" := by
  have hdata : (getPrompt "summary" "@" "~").data
      = (summaryInstructions ++ sepLine ++ chatHeading).data
          ++ '@' :: (codeHeading.data ++ '~' :: []) := by
    simp [getPrompt, summaryPrompt, String.data_append,
      show ("@" : String).data = ['@'] from rfl,
      show ("~" : String).data = ['~'] from rfl]
  have hloose : ¬ promptShapeLoose (getPrompt "summary" "@" "~") "@" "~" := by
    rintro ⟨s₁, s₂, s₃, s₄, s₅, h⟩
    have hd := congrArg String.data h
    simp only [String.data_append,
      show ("---" : String).data = ['-', '-', '-'] from rfl,
      show ("@" : String).data = ['@'] from rfl,
      show ("~" : String).data = ['~'] from rfl,
      List.append_assoc, List.cons_append, List.singleton_append] at hd
    refine loose_decomp_sep_between hdata (by decide) (by decide) (by decide)
      ⟨s₁.data ++ ['-', '-', '-'] ++ s₂.data,
       s₃.data ++ ['-', '-', '-'] ++ s₄.data, s₅.data, ?_, ?_⟩
    · rw [hd]
      simp [List.append_assoc]
    · exact containsChars_of_split s₃.data ['-', '-', '-'] s₄.data
  refine ⟨?_, hloose⟩
  rintro ⟨instr, trail, h⟩
  exact hloose ⟨instr, "", "", "", trail, by rw [h]; simp [String.append_empty]⟩

/-- C10 amended: every composed prompt has the structure instructions, then
a literal "---" separator, then a chat-section heading, then the transcript
verbatim, then the "## Final Code:" heading (with no separator), then the
code verbatim — followed, in the cursor and combined templates only, by a
second "---" separator and trailing formatting instructions. -/
theorem prompt_template_structure (markdown code : String) :
    getPrompt "summary" markdown code
      = summaryInstructions ++ sepLine ++ chatHeading ++ markdown
          ++ codeHeading ++ code ∧
    getPrompt "cursor" markdown code
      = cursorInstructions ++ sepLine ++ chatHeading ++ markdown
          ++ codeHeading ++ code ++ "\n\n" ++ sepLine ++ cursorTrailing ∧
    getPrompt "readme" markdown code
      = readmeInstructions ++ sepLine ++ chatHeading ++ markdown
          ++ codeHeading ++ code ∧
    (∀ type : String, type ≠ "summary" → type ≠ "cursor" → type ≠ "readme" →
      getPrompt type markdown code
        = combinedInstructions ++ sepLine ++ chatExportHeading ++ markdown
            ++ codeHeading ++ code ++ "\n\n" ++ sepLine ++ combinedTrailing) := by
  refine ⟨?_, ?_, ?_, fun type h1 h2 h3 => ?_⟩
  · simp [getPrompt, summaryPrompt]
  · simp [getPrompt, cursorPrompt]
  · simp [getPrompt, readmePrompt]
  · simp [getPrompt, combinedPrompt, h1, h2, h3]

/-- C10 amended witness at the unrecognized mode "bogus". -/
theorem prompt_template_structure_witness :
    getPrompt "bogus" "M" "C"
      = combinedInstructions ++ sepLine ++ chatExportHeading ++ "M"
          ++ codeHeading ++ "C" ++ "\n\n" ++ sepLine ++ combinedTrailing :=
  (prompt_template_structure "M" "C").2.2.2 "bogus" (by decide) (by decide) (by decide)
